import Mathlib

/-!
# Error reporting glue of `main.cpp`

A shallow embedding of the free functions of `src/main.cpp`:
`basename`, `sentry_send_error`, `sentry_capture_error`,
`sentry_set_handler_context`, `sentry_capture_error_with_context` and
`sentry_capture_server_exception`.

The calls into the crash-reporting SDK and the standard library are the
program's environment.  They are modelled by their documented effect on an
explicit `World`: the state of `sentry_mutex`, the SDK scope (level,
transaction, contexts) and the ordered trace of everything handed to the SDK
or written to standard error.  Each function reads top to bottom like the
C++ function of the same name.

Conventions of the embedding:

* A `std::string` is a `String`, NUL characters included.  Where the source
  passes `s.c_str()` to a `const char *` parameter, or builds a `std::string`
  from a `const char *`, only the characters before the first NUL take part
  (`c_str`, `std_string`).
* Paths are in the generic format with `/` as the only separator.
* An `int` is an `Int`; `std::to_string` is the decimal rendering `toString`.
* The SDK calls `sentry_set_context` and `sentry_capture_event` may raise an
  exception, as a test double would: the call is recorded in the trace and then
  raises without any other effect.  Which exception, if any, is part of the
  `Platform`.
* A handler `catch (const std::exception &)` matches an exception object
  exactly when `std::exception` is its dynamic type or an unambiguous public
  base class of it; an exception object records whether that is so.
* `sentry_mutex.lock()` on a mutex that is held does not return
  (`Outcome.blocked`); the embedding follows one call at a time.
-/

namespace SentryExample

/-! ## Strings -/

/-- The part of a character sequence before its first NUL character. -/
def until_nul (cs : List Char) : List Char :=
  cs.takeWhile (fun c => c != Char.ofNat 0)

/-- The C string denoted by `s.c_str()`: a reader of the `const char *` stops
at the first NUL character of `s`. -/
def c_str (s : String) : String :=
  ⟨until_nul s.data⟩

/-- The `std::string` built from a `const char *`: the characters stored at
the pointer up to, not including, the first NUL. -/
def std_string (p : String) : String :=
  ⟨until_nul p.data⟩

/-- The characters after the last directory separator: what
`std::filesystem::path::filename` yields for the generic (POSIX) format. -/
def filename_chars (cs : List Char) : List Char :=
  (cs.reverse.takeWhile (fun c => c != '/')).reverse

/-- Source `basename`: `std::filesystem::path(path).filename().string()`. -/
def basename (path : String) : String :=
  ⟨filename_chars path.data⟩

/-! ## SDK values -/

/-- Value tree of the SDK (`sentry_value_t`), restricted to the shapes the
program builds. -/
inductive sentry_value_t where
  | null : sentry_value_t
  | string (s : String) : sentry_value_t
  | list (items : List sentry_value_t) : sentry_value_t
  | object (fields : List (String × sentry_value_t)) : sentry_value_t

/-- Severity levels of the SDK (`sentry_level_e`). -/
inductive sentry_level_e where
  | SENTRY_LEVEL_DEBUG
  | SENTRY_LEVEL_INFO
  | SENTRY_LEVEL_WARNING
  | SENTRY_LEVEL_ERROR
  | SENTRY_LEVEL_FATAL
  deriving DecidableEq, Repr

/-- Replace the value stored under `key`, or add the pair at the end when the
key is new. -/
def set_field (key : String) (value : sentry_value_t) :
    List (String × sentry_value_t) → List (String × sentry_value_t)
  | [] => [(key, value)]
  | (k, v) :: rest =>
    if k = key then (key, value) :: rest else (k, v) :: set_field key value rest

/-- First value stored under `key`, if any. -/
def get_field (key : String) :
    List (String × sentry_value_t) → Option sentry_value_t
  | [] => none
  | (k, v) :: rest => if k = key then some v else get_field key rest

/-- SDK `sentry_value_new_object`. -/
def sentry_value_new_object : sentry_value_t :=
  .object []

/-- SDK `sentry_value_new_list`. -/
def sentry_value_new_list : sentry_value_t :=
  .list []

/-- SDK `sentry_value_new_string`, which takes a `const char *`. -/
def sentry_value_new_string (p : String) : sentry_value_t :=
  .string p

/-- SDK `sentry_value_set_by_key`: sets a key of an object, and leaves a
value that is not an object alone. -/
def sentry_value_set_by_key (target : sentry_value_t) (key : String)
    (value : sentry_value_t) : sentry_value_t :=
  match target with
  | .object fields => .object (set_field key value fields)
  | other => other

/-- SDK `sentry_value_append`: appends to a list, and leaves a value that is
not a list alone. -/
def sentry_value_append (target : sentry_value_t) (value : sentry_value_t) :
    sentry_value_t :=
  match target with
  | .list items => .list (items ++ [value])
  | other => other

/-- SDK `sentry_value_get_by_key`: the value under a key of an object, the
null value otherwise. -/
def sentry_value_get_by_key (target : sentry_value_t) (key : String) :
    sentry_value_t :=
  match target with
  | .object fields => (get_field key fields).getD .null
  | _ => .null

/-! ## Exceptions -/

/-- A C++ exception object in flight: the name of its dynamic type, whether a
handler `catch (const std::exception &)` matches it (`std::exception` is the
dynamic type or an unambiguous public base class of it), and the text of
`what()`. -/
structure CppException where
  dynamic_type : String
  caught_as_std_exception : Bool
  what : String
  deriving DecidableEq, Repr

/-! ## Environment and state -/

/-- What the surroundings of the program decide. -/
structure Platform where
  /-- Characters that `std::hex << std::this_thread::get_id()` streams. -/
  thread_id_hex : String
  /-- Fields the SDK puts in a fresh event (`sentry_value_new_event`). -/
  new_event_fields : List (String × sentry_value_t)
  /-- Stack trace the SDK captures in `sentry_event_value_add_stacktrace`. -/
  stacktrace : sentry_value_t
  /-- Text of `what()` of a `std::exception` copy-constructed from an object
  of another dynamic type (unspecified by the standard). -/
  sliced_what : CppException → String
  /-- Exception raised by `sentry_set_context` once called, if any. -/
  set_context_raises : Option CppException
  /-- Exception raised by `sentry_capture_event` once called, if any. -/
  capture_event_raises : Option CppException

/-- The process-wide SDK scope. -/
structure Scope where
  level : sentry_level_e
  transaction : Option String
  contexts : List (String × sentry_value_t)

/-- One observable action of the program, in program order. -/
inductive Effect where
  | stderr_write (text : String) : Effect
  | set_level (level : sentry_level_e) : Effect
  | set_transaction (transaction : String) : Effect
  | set_context (key : String) (value : sentry_value_t) : Effect
  | capture_event (event : sentry_value_t) (scope : Scope) : Effect

/-- Process state: `sentry_mutex`, the SDK scope, and the trace of actions. -/
structure World where
  mutex_locked : Bool
  scope : Scope
  trace : List Effect

/-- How a call ends: it returns, an exception leaves it, or it waits on the
mutex forever. -/
inductive Outcome where
  | returned (w : World) : Outcome
  | raised (x : CppException) (w : World) : Outcome
  | blocked (w : World) : Outcome

/-- Run `next` after a call that returned; an exception or a wait ends the
sequence. -/
def Outcome.and_then (o : Outcome) (next : World → Outcome) : Outcome :=
  match o with
  | .returned w => next w
  | .raised x w => .raised x w
  | .blocked w => .blocked w

/-- The state a call ends in. -/
def Outcome.world : Outcome → World
  | .returned w => w
  | .raised _ w => w
  | .blocked w => w

/-! ## SDK entry points with an effect on the state -/

/-- SDK `sentry_set_level`. -/
def sentry_set_level (level : sentry_level_e) (w : World) : World :=
  { w with scope := { w.scope with level := level },
           trace := w.trace ++ [.set_level level] }

/-- SDK `sentry_set_transaction`, which takes a `const char *`. -/
def sentry_set_transaction (p : String) (w : World) : World :=
  { w with scope := { w.scope with transaction := some p },
           trace := w.trace ++ [.set_transaction p] }

/-- SDK `sentry_set_context`: stores `value` under `key` in the scope
contexts, replacing what was there. -/
def sentry_set_context (P : Platform) (key : String) (value : sentry_value_t)
    (w : World) : Outcome :=
  let called : World := { w with trace := w.trace ++ [.set_context key value] }
  match P.set_context_raises with
  | some x => .raised x called
  | none =>
    .returned { called with
      scope := { called.scope with
        contexts := set_field key value called.scope.contexts } }

/-- SDK `sentry_value_new_event`: a fresh event object. -/
def sentry_value_new_event (P : Platform) : sentry_value_t :=
  .object P.new_event_fields

/-- SDK `sentry_event_value_add_stacktrace`: stores one thread holding the
captured stack trace under the key `threads` of the event. -/
def sentry_event_value_add_stacktrace (P : Platform) (event : sentry_value_t) :
    sentry_value_t :=
  let thread := sentry_value_set_by_key sentry_value_new_object "stacktrace"
    P.stacktrace
  let threads := sentry_value_append sentry_value_new_list thread
  sentry_value_set_by_key event "threads" threads

/-- SDK `sentry_capture_event`: the event is handed over together with the
scope in force at that moment. -/
def sentry_capture_event (P : Platform) (event : sentry_value_t) (w : World) :
    Outcome :=
  let called : World :=
    { w with trace := w.trace ++ [.capture_event event w.scope] }
  match P.capture_event_raises with
  | some x => .raised x called
  | none => .returned called

/-- Write to `std::cerr`. -/
def cerr_write (text : String) (w : World) : World :=
  { w with trace := w.trace ++ [.stderr_write text] }

/-- The call `sentry_mutex.lock()`: it acquires a free mutex and does not
return while the mutex is held. -/
def mutex_lock (w : World) : Option World :=
  if w.mutex_locked then none else some { w with mutex_locked := true }

/-- The call `sentry_mutex.unlock()`. -/
def mutex_unlock (w : World) : World :=
  { w with mutex_locked := false }

/-! ## The functions of `main.cpp` -/

/-- Source `sentry_send_error` (lines 19-40). -/
def sentry_send_error (P : Platform) (error_type message transaction : String)
    (w : World) : Outcome :=
  let w := sentry_set_level .SENTRY_LEVEL_ERROR w
  let w := sentry_set_transaction (c_str transaction) w
  let event := sentry_value_new_event P
  let exception := sentry_value_new_object
  let exception := sentry_value_set_by_key exception "type"
    (sentry_value_new_string (c_str error_type))
  let exception := sentry_value_set_by_key exception "value"
    (sentry_value_new_string (c_str message))
  let exceptions := sentry_value_new_list
  let exceptions := sentry_value_append exceptions exception
  let values := sentry_value_new_object
  let values := sentry_value_set_by_key values "values" exceptions
  let event := sentry_value_set_by_key event "exception" values
  let event := sentry_event_value_add_stacktrace P event
  sentry_capture_event P event w

/-- Source `sentry_capture_error` (lines 42-51).  The arguments `file` and
`function` are `const char *`; `line` is an `int`, rendered by
`std::to_string`. -/
def sentry_capture_error (P : Platform) (type message file : String)
    (line : Int) (function : String) (w : World) : Outcome :=
  let file_name := basename (std_string file)
  let transaction :=
    file_name ++ ":" ++ std_string function ++ ":" ++ toString line
  let w := cerr_write ("error: " ++ transaction ++ ": " ++ message ++ "\n") w
  sentry_send_error P type message transaction w

/-- Source `sentry_set_handler_context` (lines 53-70). -/
def sentry_set_handler_context (P : Platform)
    (request_id request_method : String) (w : World) : Outcome :=
  let context := sentry_value_new_object
  let context := sentry_value_set_by_key context "type"
    (sentry_value_new_string "request")
  let context := sentry_value_set_by_key context "requestId"
    (sentry_value_new_string (c_str request_id))
  let context := sentry_value_set_by_key context "method"
    (sentry_value_new_string (c_str request_method))
  let thread_id := "0x" ++ P.thread_id_hex
  let context := sentry_value_set_by_key context "thread"
    (sentry_value_new_string (c_str thread_id))
  sentry_set_context P "request" context w

/-- The exception object that `throw e` raises when `e` is a
`const std::exception &`: a `std::exception` copy-constructed from the
referenced object. -/
def throw_copy (P : Platform) (e : CppException) : CppException :=
  { dynamic_type := "std::exception",
    caught_as_std_exception := true,
    what := if e.dynamic_type = "std::exception" then e.what
            else P.sliced_what e }

/-- The `try` block of `sentry_capture_error_with_context` (lines 80-83). -/
def guarded_block (P : Platform) (type message file : String) (line : Int)
    (function request_id request_method : String) (w : World) : Outcome :=
  let after_context :=
    if !request_id.isEmpty || !request_method.isEmpty then
      sentry_set_handler_context P request_id request_method w
    else
      .returned w
  after_context.and_then
    (sentry_capture_error P type message file line function)

/-- Source `sentry_capture_error_with_context` (lines 72-90). -/
def sentry_capture_error_with_context (P : Platform)
    (type message file : String) (line : Int)
    (function request_id request_method : String) (w : World) : Outcome :=
  match mutex_lock w with
  | none => .blocked w
  | some w =>
    match guarded_block P type message file line function request_id
        request_method w with
    | .returned w => .returned (mutex_unlock w)
    | .raised e w =>
      if e.caught_as_std_exception then
        .raised (throw_copy P e) (mutex_unlock w)
      else
        .raised e w
    | .blocked w => .blocked w

/-- Source `sentry_capture_server_exception` (lines 92-102). -/
def sentry_capture_server_exception (P : Platform) (exception : CppException)
    (file : String) (line : Int) (function : String) (w : World) : Outcome :=
  let message := "Server exception thrown: " ++ std_string exception.what
  let error_type := "ServerError"
  sentry_capture_error_with_context P error_type message file line function
    (std_string "0") (std_string "none") w

/-! ## Observations on a trace -/

/-- The events handed to `sentry_capture_event`, oldest first, each with the
scope in force when it was handed over. -/
def submissions : List Effect → List (sentry_value_t × Scope)
  | [] => []
  | .capture_event event scope :: rest => (event, scope) :: submissions rest
  | _ :: rest => submissions rest

/-- The context objects handed to `sentry_set_context`, oldest first. -/
def context_writes : List Effect → List (String × sentry_value_t)
  | [] => []
  | .set_context key value :: rest => (key, value) :: context_writes rest
  | _ :: rest => context_writes rest

/-- The transaction label `sentry_capture_error` derives (lines 44-46),
written as one expression. -/
def transaction_label (file : String) (line : Int) (function : String) :
    String :=
  basename (std_string file) ++ ":" ++ std_string function ++ ":"
    ++ toString line

/-- The event object `sentry_send_error` hands over (lines 27-38), written
as one expression. -/
def built_event (P : Platform) (error_type message : String) : sentry_value_t :=
  sentry_event_value_add_stacktrace P
    (sentry_value_set_by_key (sentry_value_new_event P) "exception"
      (sentry_value_set_by_key sentry_value_new_object "values"
        (sentry_value_append sentry_value_new_list
          (sentry_value_set_by_key
            (sentry_value_set_by_key sentry_value_new_object "type"
              (sentry_value_new_string (c_str error_type)))
            "value" (sentry_value_new_string (c_str message))))))

/-- The context object `sentry_set_handler_context` hands over (lines 58-68),
written as one expression. -/
def built_context (P : Platform) (request_id request_method : String) :
    sentry_value_t :=
  .object
    [("type", .string "request"),
     ("requestId", .string (c_str request_id)),
     ("method", .string (c_str request_method)),
     ("thread", .string (c_str ("0x" ++ P.thread_id_hex)))]

/-- The request context of a scope: what is stored under the key `request`. -/
def request_context (scope : Scope) : Option sentry_value_t :=
  get_field "request" scope.contexts

/-! ## Sample environments -/

/-- A platform on which no SDK call raises. -/
def quiet_platform : Platform :=
  { thread_id_hex := "7f3a5c001740",
    new_event_fields := [("event_id", .string "e1"), ("timestamp", .string "t1")],
    stacktrace := .object [("frames", .list [])],
    sliced_what := fun _ => "std::exception",
    set_context_raises := none,
    capture_event_raises := none }

/-- A platform on which `sentry_capture_event` raises a
`std::runtime_error`. -/
def std_failure_platform : Platform :=
  { quiet_platform with
    capture_event_raises := some ⟨"std::runtime_error", true, "boom"⟩ }

/-- A platform on which `sentry_capture_event` raises an `int`, which a
handler for `const std::exception &` does not match. -/
def foreign_failure_platform : Platform :=
  { quiet_platform with
    capture_event_raises := some ⟨"int", false, ""⟩ }

/-- A state with the mutex free and a request context left by an earlier
report. -/
def idle_world : World :=
  { mutex_locked := false,
    scope :=
      { level := .SENTRY_LEVEL_INFO,
        transaction := none,
        contexts :=
          [("request", .object
            [("type", .string "request"), ("requestId", .string "41"),
             ("method", .string "GET"), ("thread", .string "0x1"),
             ("user", .string "u")])] },
    trace := [] }

/-- A three character `std::string` with a NUL in the middle, as built by
`std::string("a\0b", 3)`. -/
def nul_text : String :=
  String.mk ['a', Char.ofNat 0, 'b']

theorem until_nul_no_nul (cs : List Char) : Char.ofNat 0 ∉ until_nul cs := by
  intro h
  have := List.mem_takeWhile_imp h
  simp at this

theorem until_nul_fixed (cs : List Char) (h : Char.ofNat 0 ∉ cs) : until_nul cs = cs := by
  unfold until_nul
  rw [List.takeWhile_eq_self_iff]
  intro c hc
  have : c ≠ Char.ofNat 0 := fun e => h (e ▸ hc)
  simpa using this

theorem c_str_fixed (s : String) (h : Char.ofNat 0 ∉ s.data) : c_str s = s := by
  unfold c_str
  rw [until_nul_fixed _ h]

theorem digitChar_ne_nul : ∀ m, m < 10 → Nat.digitChar m ≠ Char.ofNat 0 := by
  decide

theorem toDigitsCore_avoids (c : Char) (hc : ∀ m, m < 10 → Nat.digitChar m ≠ c)
    (fuel : Nat) : ∀ (n : Nat) (ds : List Char),
    c ∉ ds → c ∉ Nat.toDigitsCore 10 fuel n ds := by
  induction fuel with
  | zero => intro n ds h; simpa [Nat.toDigitsCore] using h
  | succ fuel ih =>
    intro n ds h
    have hd : c ∉ Nat.digitChar (n % 10) :: ds := by
      intro hm
      rcases List.mem_cons.mp hm with e | e
      · exact hc _ (Nat.mod_lt _ (by decide)) e.symm
      · exact h e
    simp only [Nat.toDigitsCore]
    split_ifs
    · exact hd
    · exact ih _ _ hd

theorem nat_repr_avoids (c : Char) (hc : ∀ m, m < 10 → Nat.digitChar m ≠ c) (n : Nat) :
    c ∉ (Nat.repr n).data := by
  simp only [Nat.repr, Nat.toDigits, List.asString]
  exact toDigitsCore_avoids c hc _ _ _ (by simp)

theorem int_toString_avoids (c : Char) (hc : ∀ m, m < 10 → Nat.digitChar m ≠ c)
    (hminus : c ∉ "-".data) (z : Int) : c ∉ (toString z).data := by
  cases z with
  | ofNat n => exact nat_repr_avoids c hc n
  | negSucc n =>
    show c ∉ ("-" ++ Nat.repr (n + 1)).data
    rw [String.data_append]
    intro h
    rcases List.mem_append.mp h with e | e
    · exact hminus e
    · exact nat_repr_avoids c hc _ e

theorem int_toString_no_nul (z : Int) : Char.ofNat 0 ∉ (toString z).data :=
  int_toString_avoids _ digitChar_ne_nul (by decide) z

theorem filename_chars_no_sep (cs : List Char) : '/' ∉ filename_chars cs := by
  intro h
  unfold filename_chars at h
  have := List.mem_takeWhile_imp (List.mem_reverse.mp h)
  simp at this

theorem filename_chars_split (cs : List Char) :
    ∃ dir, cs = dir ++ filename_chars cs ∧ (dir = [] ∨ dir.getLast? = some '/') := by
  refine ⟨(cs.reverse.dropWhile (fun c => c != '/')).reverse, ?_, ?_⟩
  · unfold filename_chars
    rw [← List.reverse_append, List.takeWhile_append_dropWhile, List.reverse_reverse]
  · rw [List.getLast?_reverse]
    have h := List.head?_dropWhile_not (fun c => c != '/') cs.reverse
    cases hd : List.dropWhile (fun c => c != '/') cs.reverse with
    | nil => left; rfl
    | cons a rest =>
      right
      rw [hd] at h
      simp at h
      simp [h]

theorem submissions_append (a b : List Effect) :
    submissions (a ++ b) = submissions a ++ submissions b := by
  induction a with
  | nil => rfl
  | cons e rest ih => cases e <;> simp [submissions, ih]

theorem context_writes_append (a b : List Effect) :
    context_writes (a ++ b) = context_writes a ++ context_writes b := by
  induction a with
  | nil => rfl
  | cons e rest ih => cases e <;> simp [context_writes, ih]

theorem get_field_set_field_same (key : String) (value : sentry_value_t)
    (fields : List (String × sentry_value_t)) :
    get_field key (set_field key value fields) = some value := by
  induction fields with
  | nil => simp [set_field, get_field]
  | cons kv rest ih =>
    obtain ⟨k, v⟩ := kv
    by_cases h : k = key
    · simp [set_field, get_field, h]
    · simp [set_field, get_field, h, ih]

theorem get_field_set_field_other (key other : String) (value : sentry_value_t)
    (fields : List (String × sentry_value_t)) (h : other ≠ key) :
    get_field key (set_field other value fields) = get_field key fields := by
  induction fields with
  | nil => simp [set_field, get_field, h]
  | cons kv rest ih =>
    obtain ⟨k, v⟩ := kv
    by_cases hk : k = other
    · subst hk
      simp [set_field, get_field, h]
    · simp only [set_field, hk, if_false, get_field, ih]

theorem sentry_capture_event_world (P : Platform) (event : sentry_value_t) (w : World) :
    (sentry_capture_event P event w).world
      = { w with trace := w.trace ++ [.capture_event event w.scope] } := by
  unfold sentry_capture_event
  cases P.capture_event_raises <;> rfl

theorem c_str_fixed_iff (s : String) : c_str s = s ↔ Char.ofNat 0 ∉ s.data := by
  constructor
  · intro h hm
    have h2 : until_nul s.data = s.data := congrArg String.data h
    rw [← h2] at hm
    exact until_nul_no_nul s.data hm
  · exact c_str_fixed s

theorem std_string_no_nul (p : String) : Char.ofNat 0 ∉ (std_string p).data :=
  until_nul_no_nul p.data

theorem basename_no_nul (path : String) (h : Char.ofNat 0 ∉ path.data) :
    Char.ofNat 0 ∉ (basename path).data := by
  intro hm
  have h1 : Char.ofNat 0 ∈ filename_chars path.data := hm
  unfold filename_chars at h1
  exact h (List.mem_reverse.mp (List.takeWhile_subset _ (List.mem_reverse.mp h1)))

theorem transaction_label_no_nul (file : String) (line : Int) (function : String) :
    Char.ofNat 0 ∉ (transaction_label file line function).data := by
  unfold transaction_label
  simp only [String.data_append, List.mem_append, not_or]
  refine ⟨⟨⟨⟨basename_no_nul _ (std_string_no_nul file), by decide⟩,
    std_string_no_nul function⟩, by decide⟩, int_toString_no_nul line⟩

theorem c_str_transaction_label (file : String) (line : Int) (function : String) :
    c_str (transaction_label file line function) = transaction_label file line function :=
  c_str_fixed _ (transaction_label_no_nul file line function)

theorem sentry_send_error_world (P : Platform) (error_type message transaction : String)
    (w : World) :
    (sentry_send_error P error_type message transaction w).world
      = { mutex_locked := w.mutex_locked,
          scope := ⟨.SENTRY_LEVEL_ERROR, some (c_str transaction), w.scope.contexts⟩,
          trace := w.trace ++
            [.set_level .SENTRY_LEVEL_ERROR,
             .set_transaction (c_str transaction),
             .capture_event (built_event P error_type message)
               ⟨.SENTRY_LEVEL_ERROR, some (c_str transaction), w.scope.contexts⟩] } := by
  unfold sentry_send_error
  simp only [sentry_capture_event_world, sentry_set_transaction, sentry_set_level,
    List.append_assoc, List.singleton_append]
  rfl

theorem sentry_send_error_shape (P : Platform) (error_type message transaction : String)
    (w : World) :
    sentry_send_error P error_type message transaction w
      = match P.capture_event_raises with
        | some x => .raised x (sentry_send_error P error_type message transaction w).world
        | none => .returned (sentry_send_error P error_type message transaction w).world := by
  unfold sentry_send_error sentry_capture_event
  cases P.capture_event_raises <;> rfl

theorem sentry_capture_error_world (P : Platform) (type message file : String) (line : Int)
    (function : String) (w : World) :
    (sentry_capture_error P type message file line function w).world
      = { mutex_locked := w.mutex_locked,
          scope := ⟨.SENTRY_LEVEL_ERROR, some (transaction_label file line function),
            w.scope.contexts⟩,
          trace := w.trace ++
            [.stderr_write ("error: " ++ transaction_label file line function ++ ": "
               ++ message ++ "\n"),
             .set_level .SENTRY_LEVEL_ERROR,
             .set_transaction (transaction_label file line function),
             .capture_event (built_event P type message)
               ⟨.SENTRY_LEVEL_ERROR, some (transaction_label file line function),
                 w.scope.contexts⟩] } := by
  have hsrc : sentry_capture_error P type message file line function w
      = sentry_send_error P type message (transaction_label file line function)
          (cerr_write ("error: " ++ transaction_label file line function ++ ": "
            ++ message ++ "\n") w) := rfl
  rw [hsrc]
  simp only [sentry_send_error_world, c_str_transaction_label, cerr_write,
    List.append_assoc, List.singleton_append]

theorem sentry_capture_error_shape (P : Platform) (type message file : String) (line : Int)
    (function : String) (w : World) :
    sentry_capture_error P type message file line function w
      = match P.capture_event_raises with
        | some x => .raised x (sentry_capture_error P type message file line function w).world
        | none => .returned (sentry_capture_error P type message file line function w).world := by
  unfold sentry_capture_error
  exact sentry_send_error_shape P _ _ _ _

theorem built_event_exception (P : Platform) (error_type message : String) :
    sentry_value_get_by_key (built_event P error_type message) "exception"
      = .object [("values", .list [.object
          [("type", .string (c_str error_type)),
           ("value", .string (c_str message))]])] := by
  simp [built_event, sentry_event_value_add_stacktrace, sentry_value_set_by_key,
    sentry_value_get_by_key, sentry_value_new_event, get_field_set_field_same,
    get_field_set_field_other, sentry_value_new_object, sentry_value_new_list,
    sentry_value_append, set_field, sentry_value_new_string]

theorem sentry_set_handler_context_ok (P : Platform) (request_id request_method : String)
    (w : World) (h : P.set_context_raises = none) :
    sentry_set_handler_context P request_id request_method w
      = .returned
          { mutex_locked := w.mutex_locked,
            scope := { w.scope with
              contexts := set_field "request"
                (built_context P request_id request_method) w.scope.contexts },
            trace := w.trace ++
              [.set_context "request" (built_context P request_id request_method)] } := by
  simp [sentry_set_handler_context, sentry_set_context, h, built_context,
    sentry_value_set_by_key, sentry_value_new_object, sentry_value_new_string, set_field]

theorem sentry_set_handler_context_raises (P : Platform) (request_id request_method : String)
    (w : World) (x : CppException) (h : P.set_context_raises = some x) :
    sentry_set_handler_context P request_id request_method w
      = .raised x
          { w with trace := w.trace ++
              [.set_context "request" (built_context P request_id request_method)] } := by
  simp [sentry_set_handler_context, sentry_set_context, h, built_context,
    sentry_value_set_by_key, sentry_value_new_object, sentry_value_new_string, set_field]

theorem sentry_capture_error_ok (P : Platform) (type message file : String) (line : Int)
    (function : String) (w : World) (h : P.capture_event_raises = none) :
    sentry_capture_error P type message file line function w
      = .returned (sentry_capture_error P type message file line function w).world := by
  have hs := sentry_capture_error_shape P type message file line function w
  rw [h] at hs
  exact hs

theorem sentry_capture_error_raises (P : Platform) (type message file : String) (line : Int)
    (function : String) (w : World) (x : CppException) (h : P.capture_event_raises = some x) :
    sentry_capture_error P type message file line function w
      = .raised x (sentry_capture_error P type message file line function w).world := by
  have hs := sentry_capture_error_shape P type message file line function w
  rw [h] at hs
  exact hs

theorem with_context_unfold (P : Platform) (type message file : String) (line : Int)
    (function request_id request_method : String) (w : World)
    (hfree : w.mutex_locked = false) :
    sentry_capture_error_with_context P type message file line function request_id
        request_method w
      = match guarded_block P type message file line function request_id request_method
          { w with mutex_locked := true } with
        | .returned w => .returned (mutex_unlock w)
        | .raised e w =>
          if e.caught_as_std_exception then .raised (throw_copy P e) (mutex_unlock w)
          else .raised e w
        | .blocked w => .blocked w := by
  simp [sentry_capture_error_with_context, mutex_lock, hfree]

theorem guarded_block_skip (P : Platform) (type message file : String) (line : Int)
    (function request_id request_method : String) (w : World)
    (h : request_id = "" ∧ request_method = "") :
    guarded_block P type message file line function request_id request_method w
      = sentry_capture_error P type message file line function w := by
  obtain ⟨h1, h2⟩ := h
  subst h1 h2
  rfl

theorem guarded_block_write (P : Platform) (type message file : String) (line : Int)
    (function request_id request_method : String) (w : World)
    (h : request_id ≠ "" ∨ request_method ≠ "") :
    guarded_block P type message file line function request_id request_method w
      = (sentry_set_handler_context P request_id request_method w).and_then
          (sentry_capture_error P type message file line function) := by
  have hc : (!request_id.isEmpty || !request_method.isEmpty) = true := by
    rcases h with h | h
    · have : request_id.isEmpty = false := by
        rw [Bool.eq_false_iff]; intro he; exact h ((String.isEmpty_iff _).mp he)
      simp [this]
    · have : request_method.isEmpty = false := by
        rw [Bool.eq_false_iff]; intro he; exact h ((String.isEmpty_iff _).mp he)
      simp [this]
  simp only [guarded_block, hc, if_true]

theorem message_c_str (what : String) :
    c_str ("Server exception thrown: " ++ std_string what)
      = "Server exception thrown: " ++ std_string what := by
  apply c_str_fixed
  rw [String.data_append]
  intro h
  rcases List.mem_append.mp h with e | e
  · revert e; decide
  · exact std_string_no_nul what e

/-! ## The claims -/

/-- C1 fails on the code.  The mutex is free before the call and the report
raises an `int`.  The handler of line 84, `catch (const std::exception &)`,
does not match it, so neither the unlock of line 85 nor the unlock of line 89
runs: the exception leaves the call and the mutex is still held. -/
theorem lock_held_after_foreign_exception :
    idle_world.mutex_locked = false
    ∧ ∃ x w',
        sentry_capture_error_with_context foreign_failure_platform "ServerError" "m"
          "/a/b/main.cpp" 42 "main" "7" "GET" idle_world = .raised x w'
        ∧ x = ⟨"int", false, ""⟩
        ∧ w'.mutex_locked = true :=
  ⟨rfl, _, _, rfl, rfl, rfl⟩

/-- C2.  In a call of `sentry_capture_error_with_context` that acquires the
mutex, a context object is handed to `sentry_set_context` exactly when
`request_id` or `request_method` is non-empty, and it is then the object of
`sentry_set_handler_context` for these two arguments; no context write happens
exactly when both are empty.  When both are empty the scope contexts after the
call are those before it, and the error is still reported: the call adds to
the trace the write to standard error, the level, the transaction and one
event, submitted under the contexts of before the call, whose exception type
and value are the call's `type` and `message` as C strings. -/
theorem context_write_iff_request_given (P : Platform)
    (type message file : String) (line : Int)
    (function request_id request_method : String) (w : World)
    (hfree : w.mutex_locked = false) :
    ((∃ context,
        context_writes (sentry_capture_error_with_context P type message file line function
          request_id request_method w).world.trace
          = context_writes w.trace ++ [("request", context)])
      ↔ (request_id ≠ "" ∨ request_method ≠ ""))
    ∧ (context_writes (sentry_capture_error_with_context P type message file line function
          request_id request_method w).world.trace = context_writes w.trace
      ↔ (request_id = "" ∧ request_method = ""))
    ∧ (request_id ≠ "" ∨ request_method ≠ "" →
        context_writes (sentry_capture_error_with_context P type message file line function
          request_id request_method w).world.trace
          = context_writes w.trace ++
            [("request", .object
              [("type", .string "request"),
               ("requestId", .string (c_str request_id)),
               ("method", .string (c_str request_method)),
               ("thread", .string (c_str ("0x" ++ P.thread_id_hex)))])])
    ∧ (request_id = "" ∧ request_method = "" →
        (sentry_capture_error_with_context P type message file line function
          request_id request_method w).world.scope.contexts = w.scope.contexts
        ∧ ∃ label event,
          label = basename (std_string file) ++ ":" ++ std_string function ++ ":"
            ++ toString line
          ∧ (sentry_capture_error_with_context P type message file line function
              request_id request_method w).world.trace
            = w.trace ++
              [.stderr_write ("error: " ++ label ++ ": " ++ message ++ "\n"),
               .set_level .SENTRY_LEVEL_ERROR,
               .set_transaction label,
               .capture_event event
                 ⟨.SENTRY_LEVEL_ERROR, some label, w.scope.contexts⟩]
          ∧ sentry_value_get_by_key event "exception"
            = .object [("values", .list [.object
                [("type", .string (c_str type)),
                 ("value", .string (c_str message))]])]
          ∧ submissions (sentry_capture_error_with_context P type message file line function
              request_id request_method w).world.trace
            = submissions w.trace ++
              [(event, ⟨.SENTRY_LEVEL_ERROR, some label, w.scope.contexts⟩)]) := by
  have key : context_writes (sentry_capture_error_with_context P type message file line
      function request_id request_method w).world.trace
      = context_writes w.trace ++
        (if request_id ≠ "" ∨ request_method ≠ "" then
          [("request", built_context P request_id request_method)] else []) := by
    rw [with_context_unfold _ _ _ _ _ _ _ _ _ hfree]
    by_cases hc : request_id ≠ "" ∨ request_method ≠ ""
    · rw [guarded_block_write _ _ _ _ _ _ _ _ _ hc, if_pos hc]
      cases hs : P.set_context_raises with
      | some x =>
        rw [sentry_set_handler_context_raises _ _ _ _ x hs]
        by_cases hd : x.caught_as_std_exception = true <;>
          simp [Outcome.and_then, hd, Outcome.world, mutex_unlock, context_writes_append,
            context_writes]
      | none =>
        rw [sentry_set_handler_context_ok _ _ _ _ hs]
        cases he : P.capture_event_raises with
        | some y =>
          simp only [Outcome.and_then]
          rw [sentry_capture_error_raises _ _ _ _ _ _ _ y he, sentry_capture_error_world]
          by_cases hd : y.caught_as_std_exception = true <;>
            simp [hd, Outcome.world, mutex_unlock, context_writes_append, context_writes]
        | none =>
          simp only [Outcome.and_then]
          rw [sentry_capture_error_ok _ _ _ _ _ _ _ he, sentry_capture_error_world]
          simp [Outcome.world, mutex_unlock, context_writes_append, context_writes]
    · rw [if_neg hc]
      have hc2 : request_id = "" ∧ request_method = "" := by
        constructor
        · by_contra h; exact hc (Or.inl h)
        · by_contra h; exact hc (Or.inr h)
      rw [guarded_block_skip _ _ _ _ _ _ _ _ _ hc2]
      cases he : P.capture_event_raises with
      | some y =>
        rw [sentry_capture_error_raises _ _ _ _ _ _ _ y he, sentry_capture_error_world]
        by_cases hd : y.caught_as_std_exception = true <;>
          simp [hd, Outcome.world, mutex_unlock, context_writes_append, context_writes]
      | none =>
        rw [sentry_capture_error_ok _ _ _ _ _ _ _ he, sentry_capture_error_world]
        simp [Outcome.world, mutex_unlock, context_writes_append, context_writes]
  refine ⟨?_, ?_, ?_, ?_⟩
  · rw [key]
    constructor
    · rintro ⟨context, h⟩
      by_contra hc
      rw [if_neg hc] at h
      simp at h
    · intro hc
      exact ⟨_, by rw [if_pos hc]⟩
  · rw [key]
    constructor
    · intro h
      by_contra hc
      have hc2 : request_id ≠ "" ∨ request_method ≠ "" := by
        by_contra hn
        push_neg at hn
        exact hc hn
      rw [if_pos hc2] at h
      simp at h
    · intro hc
      have : ¬ (request_id ≠ "" ∨ request_method ≠ "") := by
        push_neg; exact hc
      rw [if_neg this]
      simp
  · intro hc
    rw [key, if_pos hc]
    rfl
  · intro hc2
    have hworld : (sentry_capture_error_with_context P type message file line function
        request_id request_method w).world
        = { (sentry_capture_error P type message file line function
              { w with mutex_locked := true }).world with
            mutex_locked :=
              (sentry_capture_error_with_context P type message file line function
                request_id request_method w).world.mutex_locked } := by
      rw [with_context_unfold _ _ _ _ _ _ _ _ _ hfree,
        guarded_block_skip _ _ _ _ _ _ _ _ _ hc2]
      cases he : P.capture_event_raises with
      | some y =>
        rw [sentry_capture_error_raises _ _ _ _ _ _ _ y he]
        by_cases hd : y.caught_as_std_exception = true <;>
          simp [hd, Outcome.world, mutex_unlock]
      | none =>
        rw [sentry_capture_error_ok _ _ _ _ _ _ _ he]
        simp [Outcome.world, mutex_unlock]
    rw [hworld, sentry_capture_error_world]
    refine ⟨rfl, transaction_label file line function, built_event P type message, rfl,
      rfl, built_event_exception P type message, ?_⟩
    simp [submissions_append, submissions]

/-- C2, a run with `request_id` and `request_method` both empty: the request
context left by the earlier report is untouched and the event reported is the
one for the type `ServerError` and the message `m`. -/
theorem context_write_iff_request_given_witness :
    idle_world.mutex_locked = false
    ∧ (sentry_capture_error_with_context quiet_platform "ServerError" "m" "/a/b/main.cpp"
        42 "main" "" "" idle_world).world.scope.contexts = idle_world.scope.contexts
    ∧ ∃ event,
        (sentry_capture_error_with_context quiet_platform "ServerError" "m" "/a/b/main.cpp"
          42 "main" "" "" idle_world).world.trace
          = [.stderr_write "error: main.cpp:main:42: m\n",
             .set_level .SENTRY_LEVEL_ERROR,
             .set_transaction "main.cpp:main:42",
             .capture_event event
               ⟨.SENTRY_LEVEL_ERROR, some "main.cpp:main:42", idle_world.scope.contexts⟩]
        ∧ sentry_value_get_by_key event "exception"
          = .object [("values", .list [.object
              [("type", .string "ServerError"), ("value", .string "m")]])] := by
  have h := (context_write_iff_request_given quiet_platform "ServerError" "m"
    "/a/b/main.cpp" 42 "main" "" "" idle_world rfl).2.2.2 ⟨rfl, rfl⟩
  obtain ⟨hctx, label, event, hlabel, htrace, hexc, _⟩ := h
  have hl : label = "main.cpp:main:42" := by rw [hlabel]; decide
  subst hl
  refine ⟨rfl, hctx, event, ?_, ?_⟩
  · rw [htrace]
    rfl
  · rw [hexc]
    have h1 : c_str "ServerError" = "ServerError" := by decide
    have h2 : c_str "m" = "m" := by decide
    rw [h1, h2]

/-- C3.  The event `sentry_capture_error` submits carries the transaction
label `basename(file)`, a colon, the function name, a colon and the decimal
rendering of the line.  Here `basename(file)` is the last path component: the
file path is a directory part, empty or ending in the separator, followed by
the basename, and the basename holds no separator.  For the file
`/a/b/main.cpp`, the function `main` and the line 42 the label is
`main.cpp:main:42`. -/
theorem transaction_label_of_submitted_event (P : Platform)
    (type message file : String) (line : Int) (function : String) (w : World) :
    (∃ event scope,
      submissions (sentry_capture_error P type message file line function w).world.trace
        = submissions w.trace ++ [(event, scope)]
      ∧ scope.transaction
        = some (basename (std_string file) ++ ":" ++ std_string function ++ ":"
            ++ toString line))
    ∧ (∃ dir, (std_string file).data = dir ++ (basename (std_string file)).data
        ∧ (dir = [] ∨ dir.getLast? = some '/'))
    ∧ '/' ∉ (basename (std_string file)).data
    ∧ (∃ event scope,
      submissions
          (sentry_capture_error P type message "/a/b/main.cpp" 42 "main" w).world.trace
        = submissions w.trace ++ [(event, scope)]
      ∧ scope.transaction = some "main.cpp:main:42") := by
  refine ⟨⟨built_event P type message,
      ⟨.SENTRY_LEVEL_ERROR, some (transaction_label file line function), w.scope.contexts⟩,
      ?_, rfl⟩, filename_chars_split _, filename_chars_no_sep _,
    ⟨built_event P type message,
      ⟨.SENTRY_LEVEL_ERROR, some (transaction_label "/a/b/main.cpp" 42 "main"),
        w.scope.contexts⟩, ?_, ?_⟩⟩
  · rw [sentry_capture_error_world]
    simp [submissions_append, submissions]
  · rw [sentry_capture_error_world]
    simp [submissions_append, submissions]
  · show some (transaction_label "/a/b/main.cpp" 42 "main") = some "main.cpp:main:42"
    decide

/-- C4.  Whatever the runtime error and the call site, the event that
`sentry_capture_server_exception` submits has the exception type
`ServerError` and as exception value the text `Server exception thrown: `
followed by `what()` and nothing else; that event is submitted, once, unless
the call waits on the mutex or the context write raises. -/
theorem server_exception_event_type_and_value (P : Platform)
    (exception : CppException) (file : String) (line : Int) (function : String)
    (w : World) :
    ∃ event scope,
      sentry_value_get_by_key event "exception"
        = .object [("values", .list [.object
            [("type", .string "ServerError"),
             ("value",
               .string ("Server exception thrown: " ++ std_string exception.what))]])]
      ∧ submissions
          (sentry_capture_server_exception P exception file line function w).world.trace
        = submissions w.trace ++
          (if w.mutex_locked = true ∨ P.set_context_raises.isSome = true then []
           else [(event, scope)]) := by
  refine ⟨built_event P "ServerError" ("Server exception thrown: " ++ std_string exception.what),
    ⟨.SENTRY_LEVEL_ERROR, some (transaction_label file line function),
      set_field "request" (built_context P "0" "none") w.scope.contexts⟩, ?_, ?_⟩
  · rw [built_event_exception, message_c_str]
    rfl
  · unfold sentry_capture_server_exception
    by_cases hl : w.mutex_locked = true
    · simp [sentry_capture_error_with_context, mutex_lock, hl, Outcome.world]
    · have hfree : w.mutex_locked = false := by simpa using hl
      have hc : std_string "0" ≠ "" ∨ std_string "none" ≠ "" := Or.inl (by decide)
      have h0 : std_string "0" = "0" := by decide
      have h1 : std_string "none" = "none" := by decide
      rw [with_context_unfold _ _ _ _ _ _ _ _ _ hfree,
        guarded_block_write _ _ _ _ _ _ _ _ _ hc, h0, h1]
      cases hs : P.set_context_raises with
      | some x =>
        rw [sentry_set_handler_context_raises _ _ _ _ x hs]
        by_cases hd : x.caught_as_std_exception = true <;>
          simp [Outcome.and_then, hd, Outcome.world, mutex_unlock, submissions_append,
            submissions]
      | none =>
        rw [sentry_set_handler_context_ok _ _ _ _ hs]
        cases he : P.capture_event_raises with
        | some y =>
          simp only [Outcome.and_then]
          rw [sentry_capture_error_raises _ _ _ _ _ _ _ y he, sentry_capture_error_world]
          by_cases hd : y.caught_as_std_exception = true <;>
            simp [hd, hfree, Outcome.world, mutex_unlock, submissions_append, submissions]
        | none =>
          simp only [Outcome.and_then]
          rw [sentry_capture_error_ok _ _ _ _ _ _ _ he, sentry_capture_error_world]
          simp [hfree, Outcome.world, mutex_unlock, submissions_append, submissions]

/-- C5 fails on the code.  The report raises a `std::runtime_error` with the
message `boom`; the handler of lines 84-86 rethrows with `throw e`, so what
reaches the caller is a `std::exception` copy, of another dynamic type and
with another message than the exception raised. -/
theorem rethrown_exception_is_a_sliced_copy :
    ∃ x w',
      sentry_capture_error_with_context std_failure_platform "ServerError" "m"
        "/a/b/main.cpp" 42 "main" "7" "GET" idle_world = .raised x w'
      ∧ x = ⟨"std::exception", true, "std::exception"⟩
      ∧ x ≠ ⟨"std::runtime_error", true, "boom"⟩ :=
  ⟨_, _, rfl, rfl, by decide⟩

/-- C6.  When `sentry_capture_server_exception` returns normally the context
write took place: one context object was handed to `sentry_set_context`, it
is the request context in force when the event was submitted and after the
call, whatever the request context was before, and its `requestId` is `0`
and its `method` is `none`. -/
theorem server_exception_placeholder_context (P : Platform)
    (exception : CppException) (file : String) (line : Int) (function : String)
    (w w' : World)
    (hret : sentry_capture_server_exception P exception file line function w
      = .returned w') :
    ∃ context event scope,
      context_writes w'.trace = context_writes w.trace ++ [("request", context)]
      ∧ submissions w'.trace = submissions w.trace ++ [(event, scope)]
      ∧ request_context scope = some context
      ∧ request_context w'.scope = some context
      ∧ sentry_value_get_by_key context "requestId" = .string "0"
      ∧ sentry_value_get_by_key context "method" = .string "none" := by
  unfold sentry_capture_server_exception at hret
  by_cases hl : w.mutex_locked = true
  · simp [sentry_capture_error_with_context, mutex_lock, hl] at hret
  · have hfree : w.mutex_locked = false := by simpa using hl
    have hc : std_string "0" ≠ "" ∨ std_string "none" ≠ "" := Or.inl (by decide)
    have h0 : std_string "0" = "0" := by decide
    have h1 : std_string "none" = "none" := by decide
    rw [with_context_unfold _ _ _ _ _ _ _ _ _ hfree,
      guarded_block_write _ _ _ _ _ _ _ _ _ hc, h0, h1] at hret
    cases hs : P.set_context_raises with
    | some x =>
      rw [sentry_set_handler_context_raises _ _ _ _ x hs] at hret
      by_cases hd : x.caught_as_std_exception = true <;>
        simp [Outcome.and_then, hd] at hret
    | none =>
      rw [sentry_set_handler_context_ok _ _ _ _ hs] at hret
      cases he : P.capture_event_raises with
      | some y =>
        simp only [Outcome.and_then] at hret
        rw [sentry_capture_error_raises _ _ _ _ _ _ _ y he] at hret
        by_cases hd : y.caught_as_std_exception = true <;> simp [hd] at hret
      | none =>
        simp only [Outcome.and_then] at hret
        rw [sentry_capture_error_ok _ _ _ _ _ _ _ he, sentry_capture_error_world] at hret
        simp only [Outcome.returned.injEq] at hret
        subst hret
        refine ⟨built_context P "0" "none",
          built_event P "ServerError"
            ("Server exception thrown: " ++ std_string exception.what),
          ⟨.SENTRY_LEVEL_ERROR, some (transaction_label file line function),
            set_field "request" (built_context P "0" "none") w.scope.contexts⟩,
          ?_, ?_, ?_, ?_, ?_, ?_⟩
        · simp [mutex_unlock, context_writes_append, context_writes]
        · simp [mutex_unlock, submissions_append, submissions]
        · simp [request_context, get_field_set_field_same]
        · simp [mutex_unlock, request_context, get_field_set_field_same]
        · simp [built_context, sentry_value_get_by_key, get_field]
          decide
        · simp [built_context, sentry_value_get_by_key, get_field]
          decide

/-- C6, a run: the program of `main`, which reports the runtime error
`This is an error!`, over a request context left by an earlier report. -/
theorem server_exception_placeholder_context_witness :
    sentry_capture_server_exception quiet_platform
        ⟨"std::runtime_error", true, "This is an error!"⟩ "main.cpp" 125 "main" idle_world
      = .returned (sentry_capture_server_exception quiet_platform
          ⟨"std::runtime_error", true, "This is an error!"⟩ "main.cpp" 125 "main"
          idle_world).world
    ∧ ∃ context event scope,
      context_writes (sentry_capture_server_exception quiet_platform
          ⟨"std::runtime_error", true, "This is an error!"⟩ "main.cpp" 125 "main"
          idle_world).world.trace
        = context_writes idle_world.trace ++ [("request", context)]
      ∧ submissions (sentry_capture_server_exception quiet_platform
          ⟨"std::runtime_error", true, "This is an error!"⟩ "main.cpp" 125 "main"
          idle_world).world.trace
        = submissions idle_world.trace ++ [(event, scope)]
      ∧ request_context scope = some context
      ∧ request_context (sentry_capture_server_exception quiet_platform
          ⟨"std::runtime_error", true, "This is an error!"⟩ "main.cpp" 125 "main"
          idle_world).world.scope = some context
      ∧ sentry_value_get_by_key context "requestId" = .string "0"
      ∧ sentry_value_get_by_key context "method" = .string "none" :=
  ⟨rfl, server_exception_placeholder_context quiet_platform
    ⟨"std::runtime_error", true, "This is an error!"⟩ "main.cpp" 125 "main" idle_world _ rfl⟩

/-- C8, amended.  `sentry_set_handler_context` hands `sentry_set_context` one
fresh object with exactly the four fields `type`, `requestId`, `method` and
`thread`, and when that call returns the object is the whole request context:
nothing of the prior record is left.  `type` is `request`, `thread` is `0x`
followed by the calling thread's id, and `requestId` and `method` are
`request_id` and `request_method` cut at their first NUL character, which is
the argument itself exactly when it holds no NUL. -/
theorem handler_context_replaces_request_context (P : Platform)
    (request_id request_method : String) (w : World) :
    context_writes (sentry_set_handler_context P request_id request_method w).world.trace
      = context_writes w.trace ++
        [("request", .object
          [("type", .string "request"),
           ("requestId", .string (c_str request_id)),
           ("method", .string (c_str request_method)),
           ("thread", .string (c_str ("0x" ++ P.thread_id_hex)))])]
    ∧ request_context (sentry_set_handler_context P request_id request_method w).world.scope
      = (match P.set_context_raises with
        | none => some (.object
            [("type", .string "request"),
             ("requestId", .string (c_str request_id)),
             ("method", .string (c_str request_method)),
             ("thread", .string (c_str ("0x" ++ P.thread_id_hex)))])
        | some _ => request_context w.scope)
    ∧ (c_str request_id = request_id ↔ Char.ofNat 0 ∉ request_id.data)
    ∧ (c_str request_method = request_method ↔ Char.ofNat 0 ∉ request_method.data) := by
  refine ⟨?_, ?_, c_str_fixed_iff _, c_str_fixed_iff _⟩
  · cases hs : P.set_context_raises with
    | some x =>
      rw [sentry_set_handler_context_raises _ _ _ _ x hs]
      simp [Outcome.world, context_writes_append, context_writes, built_context]
    | none =>
      rw [sentry_set_handler_context_ok _ _ _ _ hs]
      simp [Outcome.world, context_writes_append, context_writes, built_context]
  · cases hs : P.set_context_raises with
    | some x =>
      rw [sentry_set_handler_context_raises _ _ _ _ x hs]
      simp [Outcome.world]
    | none =>
      rw [sentry_set_handler_context_ok _ _ _ _ hs]
      simp [Outcome.world, request_context, get_field_set_field_same, built_context]

/-- C8 as stated fails.  For a `request_id` of three characters with a NUL
in the middle, the request context after the call does not hold `request_id`
under `requestId`: `request_id.c_str()` is read as a C string. -/
theorem handler_context_request_id_cut_at_nul :
    ¬ ∃ context,
      request_context
        (sentry_set_handler_context quiet_platform nul_text "GET" idle_world).world.scope
        = some context
      ∧ sentry_value_get_by_key context "requestId" = .string nul_text := by
  rintro ⟨context, h1, h2⟩
  have h : request_context
      (sentry_set_handler_context quiet_platform nul_text "GET" idle_world).world.scope
      = some (built_context quiet_platform nul_text "GET") := rfl
  rw [h] at h1
  cases h1
  revert h2
  simp [built_context, sentry_value_get_by_key, get_field]
  decide

/-- C9, amended.  `sentry_send_error` sets the level to error, sets the
transaction and submits exactly one event, with the scope at level error and
with that transaction; the `exception` field of the event is an object whose
`values` field is a list of exactly one object with the fields `type` and
`value`.  The transaction, `type` and `value` are `transaction`, `error_type`
and `message` cut at their first NUL character, which is the argument itself
exactly when it holds no NUL. -/
theorem send_error_submits_one_event (P : Platform)
    (error_type message transaction : String) (w : World) :
    (∃ event,
      (sentry_send_error P error_type message transaction w).world.trace
        = w.trace ++
          [.set_level .SENTRY_LEVEL_ERROR,
           .set_transaction (c_str transaction),
           .capture_event event
             ⟨.SENTRY_LEVEL_ERROR, some (c_str transaction), w.scope.contexts⟩]
      ∧ sentry_value_get_by_key event "exception"
        = .object [("values", .list [.object
            [("type", .string (c_str error_type)),
             ("value", .string (c_str message))]])])
    ∧ (c_str error_type = error_type ↔ Char.ofNat 0 ∉ error_type.data)
    ∧ (c_str message = message ↔ Char.ofNat 0 ∉ message.data)
    ∧ (c_str transaction = transaction ↔ Char.ofNat 0 ∉ transaction.data) := by
  refine ⟨⟨built_event P error_type message, ?_, built_event_exception P _ _⟩,
    c_str_fixed_iff _, c_str_fixed_iff _, c_str_fixed_iff _⟩
  rw [sentry_send_error_world]

/-- C9 as stated fails.  For a message of three characters with a NUL in the
middle, the one event submitted does not hold the message under `value`:
`message.c_str()` is read as a C string. -/
theorem send_error_value_cut_at_nul :
    ¬ ∃ event scope,
      submissions
          (sentry_send_error quiet_platform "ServerError" nul_text "main.cpp:main:42"
            idle_world).world.trace
        = [(event, scope)]
      ∧ sentry_value_get_by_key event "exception"
        = .object [("values", .list [.object
            [("type", .string "ServerError"), ("value", .string nul_text)]])] := by
  rintro ⟨event, scope, h1, h2⟩
  rw [sentry_send_error_world] at h1
  simp only [idle_world, List.nil_append, submissions, List.cons.injEq, Prod.mk.injEq,
    and_true] at h1
  rw [← h1.1, built_event_exception] at h2
  revert h2
  simp
  decide

end SentryExample
